import Mathlib

set_option maxRecDepth 100000

/-!
Verification of the Chrome-Fuchsia binary size differ
(`fuchsia/binary_size_differ.py`) and test runner (`fuchsia/test_runner.py`).

The Python code is shallowly embedded: dictionaries become association
lists (insertion ordered, keys unique), Python strings become `List Char`,
Python ints become `Int`, and a raised exception becomes `Except.error`.
-/

namespace BinarySizeDiffer

/-- Sizes recorded for one package in a sizes snapshot. -/
structure PackageSizes where
  compressed : Int
  uncompressed : Int
  deriving Repr, DecidableEq

/-- A snapshot maps package names to sizes; modelled as an insertion-ordered
association list, mirroring a Python dict. -/
abbrev Snapshot := List (String × PackageSizes)

/-- `_MAX_DELTA_BYTES = 12 * 1024  # 12 KiB` -/
def MAX_DELTA_BYTES : Int := 12 * 1024

/-- `_TRYBOT_DOC` URL constant. -/
def TRYBOT_DOC : String :=
  "https://chromium.googlesource.com/chromium/src/+/main/docs/speed/binary_size/fuchsia_binary_size_trybot.md"

/-- The keys of a snapshot, in insertion order. -/
def keys (s : Snapshot) : List String := s.map Prod.fst

/-- Python `before_sizes.keys() == after_sizes.keys()`: dict key views compare
as sets, so this is set equality of the key lists. -/
def sameKeys (b a : Snapshot) : Bool :=
  (keys b).all (fun k => (keys a).contains k) &&
    (keys a).all (fun k => (keys b).contains k)

/-- Compressed-size delta of one before-entry against the after snapshot:
`after_sizes[package_name].compressed - before_sizes[package_name].compressed`. -/
def deltaC (after : Snapshot) (p : String × PackageSizes) : Int :=
  ((List.lookup p.fst after).getD ⟨0, 0⟩).compressed - p.snd.compressed

/-- Uncompressed-size delta of one before-entry against the after snapshot. -/
def deltaU (after : Snapshot) (p : String × PackageSizes) : Int :=
  ((List.lookup p.fst after).getD ⟨0, 0⟩).uncompressed - p.snd.uncompressed

/-- The header literal `'Size check failed! The following package(s) are affected:\n'`. -/
def headerLine : List Char :=
  "Size check failed! The following package(s) are affected:\n".data

/-- One failing-package line: `'- %s grew by %d bytes\n' % (package_name, growth)`. -/
def grewLine (name : String) (delta : Int) : List Char :=
  "- ".data ++ name.data ++ " grew by ".data ++ (toString delta).data ++ " bytes\n".data

/-- The trailing text appended after the loop:
`'\nSee the following document for more information about this trybot:\n%s' % _TRYBOT_DOC`. -/
def trailerText : List Char :=
  "\nSee the following document for more information about this trybot:\n".data
    ++ TRYBOT_DOC.data

/-- `summary.replace('\n', '<br>')` for a single-character pattern. -/
def replaceNewlines : List Char → List Char
  | [] => []
  | c :: cs => (if c = '\n' then "<br>".data else [c]) ++ replaceNewlines cs

/-- The mutable state of the loop in `ComputePackageDiffs`: the two growth
dicts, `status_code` and `summary`. -/
structure DiffState where
  compressedGrowth : List (String × Int)
  uncompressedGrowth : List (String × Int)
  status_code : Nat
  summary : List Char
  deriving Repr, DecidableEq

/-- One iteration of the `for package_name in before_sizes` loop. -/
def diffStep (after : Snapshot) (st : DiffState) (p : String × PackageSizes) : DiffState :=
  let dc := deltaC after p
  let du := deltaU after p
  let st' : DiffState :=
    { st with
      compressedGrowth := st.compressedGrowth ++ [(p.fst, dc)],
      uncompressedGrowth := st.uncompressedGrowth ++ [(p.fst, du)] }
  if MAX_DELTA_BYTES ≤ dc then
    -- Python: `if status_code == 1 and not summary: summary = header`
    let s := if st'.status_code = 1 ∧ st'.summary = [] then headerLine else st'.summary
    { st' with status_code := 1, summary := s ++ grewLine p.fst dc }
  else st'

/-- The returned `growth` dict. -/
structure GrowthReport where
  compressed : List (String × Int)
  uncompressed : List (String × Int)
  status_code : Nat
  summary : List Char
  archive_filenames : List String
  links : List String
  deriving Repr, DecidableEq

/-- `ComputePackageDiffs(before_sizes_file, after_sizes_file)`: the assert on
equal key sets becomes `Except.error`; otherwise the loop runs over the
before snapshot in insertion order and the report is assembled. -/
def ComputePackageDiffs (before_sizes after_sizes : Snapshot) : Except String GrowthReport :=
  if sameKeys before_sizes after_sizes then
    let st := before_sizes.foldl (diffStep after_sizes) ⟨[], [], 0, []⟩
    Except.ok
      { compressed := st.compressedGrowth
        uncompressed := st.uncompressedGrowth
        status_code := st.status_code
        summary := replaceNewlines (st.summary ++ trailerText)
        archive_filenames := []
        links := [] }
  else
    Except.error "Package files cannot be compared with different packages"

/-! Structural lemmas about the loop of `ComputePackageDiffs`. -/

theorem diffStep_status_of_le {after : Snapshot} {st : DiffState} {p : String × PackageSizes}
    (h : MAX_DELTA_BYTES ≤ deltaC after p) :
    (diffStep after st p).status_code = 1 := by
  simp [diffStep, h]

theorem diffStep_status_of_lt {after : Snapshot} {st : DiffState} {p : String × PackageSizes}
    (h : ¬ MAX_DELTA_BYTES ≤ deltaC after p) :
    (diffStep after st p).status_code = st.status_code := by
  simp [diffStep, h]

theorem foldl_status (after : Snapshot) (l : List (String × PackageSizes)) (st : DiffState) :
    (l.foldl (diffStep after) st).status_code =
      if ∃ p ∈ l, MAX_DELTA_BYTES ≤ deltaC after p then 1 else st.status_code := by
  induction l generalizing st with
  | nil => simp
  | cons x xs ih =>
    rw [List.foldl_cons, ih]
    by_cases hx : MAX_DELTA_BYTES ≤ deltaC after x
    · rw [diffStep_status_of_le hx,
        if_pos (⟨x, List.mem_cons_self x xs, hx⟩ : ∃ p ∈ x :: xs, MAX_DELTA_BYTES ≤ deltaC after p)]
      split <;> rfl
    · rw [diffStep_status_of_lt hx]
      have hcond : (∃ p ∈ x :: xs, MAX_DELTA_BYTES ≤ deltaC after p) ↔
          (∃ p ∈ xs, MAX_DELTA_BYTES ≤ deltaC after p) := by
        constructor
        · rintro ⟨p, hp, hpd⟩
          rcases List.mem_cons.mp hp with rfl | hp'
          · exact absurd hpd hx
          · exact ⟨p, hp', hpd⟩
        · rintro ⟨p, hp, hpd⟩
          exact ⟨p, List.mem_cons_of_mem x hp, hpd⟩
      by_cases hxs : ∃ p ∈ xs, MAX_DELTA_BYTES ≤ deltaC after p
      · rw [if_pos hxs, if_pos (hcond.mpr hxs)]
      · rw [if_neg hxs, if_neg (fun h => hxs (hcond.mp h))]

theorem diffStep_compressed (after : Snapshot) (st : DiffState) (p : String × PackageSizes) :
    (diffStep after st p).compressedGrowth =
      st.compressedGrowth ++ [(p.fst, deltaC after p)] := by
  by_cases h : MAX_DELTA_BYTES ≤ deltaC after p <;> simp [diffStep, h]

theorem diffStep_uncompressed (after : Snapshot) (st : DiffState) (p : String × PackageSizes) :
    (diffStep after st p).uncompressedGrowth =
      st.uncompressedGrowth ++ [(p.fst, deltaU after p)] := by
  by_cases h : MAX_DELTA_BYTES ≤ deltaC after p <;> simp [diffStep, h]

theorem foldl_compressed (after : Snapshot) (l : List (String × PackageSizes)) (st : DiffState) :
    (l.foldl (diffStep after) st).compressedGrowth =
      st.compressedGrowth ++ l.map (fun p => (p.fst, deltaC after p)) := by
  induction l generalizing st with
  | nil => simp
  | cons x xs ih => simp [ih, diffStep_compressed]

theorem foldl_uncompressed (after : Snapshot) (l : List (String × PackageSizes)) (st : DiffState) :
    (l.foldl (diffStep after) st).uncompressedGrowth =
      st.uncompressedGrowth ++ l.map (fun p => (p.fst, deltaU after p)) := by
  induction l generalizing st with
  | nil => simp
  | cons x xs ih => simp [ih, diffStep_uncompressed]

theorem diffStep_summary_mono (after : Snapshot) (st : DiffState) (p : String × PackageSizes) :
    st.summary <:+: (diffStep after st p).summary := by
  by_cases h : MAX_DELTA_BYTES ≤ deltaC after p
  · have hsum : (diffStep after st p).summary =
        (if st.status_code = 1 ∧ st.summary = [] then headerLine else st.summary)
          ++ grewLine p.fst (deltaC after p) := by
      simp [diffStep, h]
    by_cases hc : st.status_code = 1 ∧ st.summary = []
    · rw [hsum, if_pos hc, hc.2]
      exact List.nil_infix
    · rw [hsum, if_neg hc]
      exact (List.prefix_append _ _).isInfix
  · simp [diffStep, h]

theorem foldl_summary_mono (after : Snapshot) (l : List (String × PackageSizes))
    (st : DiffState) :
    st.summary <:+: (l.foldl (diffStep after) st).summary := by
  induction l generalizing st with
  | nil => exact List.infix_rfl
  | cons x xs ih => exact (diffStep_summary_mono after st x).trans (ih _)

theorem foldl_summary_grew (after : Snapshot) (l : List (String × PackageSizes))
    (st : DiffState) (p : String × PackageSizes) (hp : p ∈ l)
    (hd : MAX_DELTA_BYTES ≤ deltaC after p) :
    grewLine p.fst (deltaC after p) <:+: (l.foldl (diffStep after) st).summary := by
  induction l generalizing st with
  | nil => cases hp
  | cons x xs ih =>
    rcases List.mem_cons.mp hp with rfl | hp'
    · refine List.IsInfix.trans ?_ (foldl_summary_mono after xs _)
      have : (diffStep after st p).summary =
          (if st.status_code = 1 ∧ st.summary = [] then headerLine else st.summary)
            ++ grewLine p.fst (deltaC after p) := by
        simp [diffStep, hd]
      exact this ▸ (List.suffix_append _ _).isInfix
    · exact ih _ hp'

/-! Lemmas about `replaceNewlines` and summary shape. -/

theorem replaceNewlines_append (a b : List Char) :
    replaceNewlines (a ++ b) = replaceNewlines a ++ replaceNewlines b := by
  induction a with
  | nil => rfl
  | cons c cs ih => by_cases h : c = '\n' <;> simp [replaceNewlines, h, ih]

theorem replaceNewlines_eq_self {l : List Char} (h : '\n' ∉ l) :
    replaceNewlines l = l := by
  induction l with
  | nil => rfl
  | cons c cs ih =>
    have hc : ¬ c = '\n' := fun hh => h (hh ▸ List.mem_cons_self c cs)
    simp [replaceNewlines, hc, ih (fun hm => h (List.mem_cons_of_mem c hm))]

theorem newline_not_mem_replaceNewlines (l : List Char) : '\n' ∉ replaceNewlines l := by
  induction l with
  | nil => simp [replaceNewlines]
  | cons c cs ih =>
    by_cases h : c = '\n'
    · simp only [replaceNewlines, h, if_pos rfl]
      intro hmem
      rcases List.mem_append.mp hmem with hl | hr
      · revert hl; decide
      · exact ih hr
    · simp only [replaceNewlines, h, if_neg h, List.singleton_append]
      intro hmem
      rcases List.mem_cons.mp hmem with he | hr
      · exact h he.symm
      · exact ih hr

theorem infix_replaceNewlines {l₁ l₂ : List Char} (h : l₁ <:+: l₂) (hn : '\n' ∉ l₁) :
    l₁ <:+: replaceNewlines l₂ := by
  obtain ⟨u, v, huv⟩ := h
  refine ⟨replaceNewlines u, replaceNewlines v, ?_⟩
  rw [← replaceNewlines_eq_self hn, ← replaceNewlines_append, ← replaceNewlines_append, huv]

/-- The summary accumulated by the loop is empty or ends with a newline. -/
def EndsNl (l : List Char) : Prop := l = [] ∨ ∃ t, l = t ++ ['\n']

theorem grewLine_endsNl (name : String) (d : Int) :
    ∃ t, grewLine name d = t ++ ['\n'] := by
  refine ⟨"- ".data ++ name.data ++ " grew by ".data ++ (toString d).data ++ " bytes".data, ?_⟩
  have : " bytes\n".data = " bytes".data ++ ['\n'] := rfl
  simp [grewLine, this]

theorem diffStep_endsNl (after : Snapshot) (st : DiffState) (p : String × PackageSizes)
    (h : EndsNl st.summary) : EndsNl (diffStep after st p).summary := by
  by_cases hd : MAX_DELTA_BYTES ≤ deltaC after p
  · have hsum : (diffStep after st p).summary =
        (if st.status_code = 1 ∧ st.summary = [] then headerLine else st.summary)
          ++ grewLine p.fst (deltaC after p) := by
      simp [diffStep, hd]
    obtain ⟨t, ht⟩ := grewLine_endsNl p.fst (deltaC after p)
    exact Or.inr ⟨_ ++ t, by rw [hsum, ht, List.append_assoc]⟩
  · have hsum : (diffStep after st p).summary = st.summary := by simp [diffStep, hd]
    rw [EndsNl, hsum]
    exact h

theorem foldl_endsNl (after : Snapshot) (l : List (String × PackageSizes)) (st : DiffState)
    (h : EndsNl st.summary) : EndsNl (l.foldl (diffStep after) st).summary := by
  induction l generalizing st with
  | nil => exact h
  | cons x xs ih => exact ih _ (diffStep_endsNl after st x h)

/-! Lemmas about key sets and lookups. -/

theorem sameKeys_iff {b a : Snapshot} :
    sameKeys b a = true ↔ ∀ k, k ∈ keys b ↔ k ∈ keys a := by
  unfold sameKeys
  rw [Bool.and_eq_true, List.all_eq_true, List.all_eq_true]
  constructor
  · rintro ⟨h1, h2⟩ k
    constructor
    · intro hk
      simpa using h1 k hk
    · intro hk
      simpa using h2 k hk
  · intro h
    refine ⟨fun k hk => ?_, fun k hk => ?_⟩
    · simpa using (h k).mp hk
    · simpa using (h k).mpr hk

theorem lookup_of_mem_keys {l : Snapshot} {k : String} (h : k ∈ keys l) :
    ∃ v, List.lookup k l = some v := by
  induction l with
  | nil => simp [keys] at h
  | cons x xs ih =>
    by_cases hx : k = x.fst
    · exact ⟨x.snd, by simp [List.lookup, hx]⟩
    · have hk : k ∈ keys xs := by
        rcases by simpa [keys] using h with he | hm
        · exact absurd he hx
        · simpa [keys] using hm
      obtain ⟨v, hv⟩ := ih hk
      have hbeq : (k == x.fst) = false := beq_eq_false_iff_ne.mpr hx
      exact ⟨v, by simp [List.lookup, hbeq, hv]⟩

theorem lookup_map_fst {l : Snapshot} {f : String × PackageSizes → Int}
    (hnd : (keys l).Nodup) {p : String × PackageSizes} (hp : p ∈ l) :
    List.lookup p.fst (l.map (fun q => (q.fst, f q))) = some (f p) := by
  induction l with
  | nil => cases hp
  | cons x xs ih =>
    have hnd' : x.fst ∉ keys xs ∧ (keys xs).Nodup := by
      simpa [keys] using hnd
    rcases List.mem_cons.mp hp with rfl | hp'
    · simp [List.lookup]
    · have hmem : p.fst ∈ keys xs := List.mem_map_of_mem Prod.fst hp'
      have hne : (p.fst == x.fst) = false :=
        beq_eq_false_iff_ne.mpr (fun he => hnd'.1 (he ▸ hmem))
      simpa [List.lookup, hne] using ih hnd'.2 hp'

/-- Unfolding of `ComputePackageDiffs` when the key sets agree. -/
theorem computePackageDiffs_ok {before after : Snapshot} (hk : sameKeys before after = true) :
    ComputePackageDiffs before after = Except.ok
      { compressed := (before.foldl (diffStep after) ⟨[], [], 0, []⟩).compressedGrowth
        uncompressed := (before.foldl (diffStep after) ⟨[], [], 0, []⟩).uncompressedGrowth
        status_code := (before.foldl (diffStep after) ⟨[], [], 0, []⟩).status_code
        summary := replaceNewlines
          ((before.foldl (diffStep after) ⟨[], [], 0, []⟩).summary ++ trailerText)
        archive_filenames := []
        links := [] } := by
  unfold ComputePackageDiffs
  rw [if_pos hk]

/-- The state of the world observed by `main` of `binary_size_differ.py`:
existence of the two build directories and the two sizes files, the parsed
snapshots, and whether opening/writing the results file succeeds. -/
structure MainEnv where
  before_dir_exists : Bool
  after_dir_exists : Bool
  before_file_exists : Bool
  after_file_exists : Bool
  before_sizes : Snapshot
  after_sizes : Snapshot
  write_ok : Bool

/-- `main()` of `binary_size_differ.py`. The raises before the `try` block
(missing directory or sizes file) are uncaught and become `Except.error`;
inside the `try` block any exception is caught and the `finally` block
returns `0 if test_completed else 1`. `test_completed` is set to `True`
after `ComputePackageDiffs` returns but before the results file is opened,
so both branches of the write return 0. -/
def main (env : MainEnv) : Except String Nat :=
  if !(env.before_dir_exists && env.after_dir_exists) then
    Except.error "Could not find build output directory"
  else if !env.before_file_exists then
    Except.error "Could not find before sizes file"
  else if !env.after_file_exists then
    Except.error "Could not find after sizes file"
  else
    match ComputePackageDiffs env.before_sizes env.after_sizes with
    | Except.error _ => Except.ok 1
    | Except.ok _ => if env.write_ok then Except.ok 0 else Except.ok 0

end BinarySizeDiffer

section BinarySizeDifferClaims

open BinarySizeDiffer

/-- C1: on a snapshot pair where the single package grew by exactly 12288
compressed bytes, `ComputePackageDiffs` reports a failing status but its
summary does not contain the header line "Size check failed! The following
package(s) are affected:". The guard `status_code == 1 and not summary` is
evaluated before `status_code` is set to 1, so the header is unreachable. -/
theorem c1_header_never_emitted :
    ∃ g, ComputePackageDiffs [("pkg", ⟨0, 0⟩)] [("pkg", ⟨12288, 0⟩)] = Except.ok g ∧
      g.status_code = 1 ∧
      ¬ ("Size check failed! The following package(s) are affected:".data <:+: g.summary) := by
  refine ⟨_, rfl, by decide, by decide⟩

/-- C2 counterexample: with both directories and both sizes files present
and equal snapshots, but a results path that cannot be written, `main`
still returns exit code 0: the exception raised while writing is caught
after `test_completed` was already set. -/
theorem c2_write_failure_returns_zero :
    BinarySizeDiffer.main
      { before_dir_exists := true
        after_dir_exists := true
        before_file_exists := true
        after_file_exists := true
        before_sizes := [("pkg", ⟨0, 0⟩)]
        after_sizes := [("pkg", ⟨0, 0⟩)]
        write_ok := false } = Except.ok 0 := by
  rfl

/-- C2 amended: `main` returns exit code 0 exactly when the directories and
sizes files exist and the growth report is computed successfully; whether
the results file is written has no effect on the exit code. An exception
raised by `ComputePackageDiffs` yields exit code 1; a missing directory or
file propagates as an uncaught exception. -/
theorem c2_exit_zero_iff_computed (env : MainEnv) :
    (BinarySizeDiffer.main env = Except.ok 0 ↔
      env.before_dir_exists = true ∧ env.after_dir_exists = true ∧
      env.before_file_exists = true ∧ env.after_file_exists = true ∧
      ∃ g, ComputePackageDiffs env.before_sizes env.after_sizes = Except.ok g) ∧
    (BinarySizeDiffer.main env = Except.ok 1 ↔
      env.before_dir_exists = true ∧ env.after_dir_exists = true ∧
      env.before_file_exists = true ∧ env.after_file_exists = true ∧
      ∃ e, ComputePackageDiffs env.before_sizes env.after_sizes = Except.error e) := by
  obtain ⟨b1, a1, b2, a2, bs, asz, wk⟩ := env
  unfold BinarySizeDiffer.main
  cases b1 <;> cases a1 <;> cases b2 <;> cases a2 <;>
    simp only [Bool.and_self, Bool.not_true, Bool.not_false, Bool.and_true, Bool.and_false,
      Bool.true_and, Bool.false_and, if_true, if_false, ite_true, ite_false] <;>
    try simp
  cases hc : ComputePackageDiffs bs asz with
  | error e => simp [hc]
  | ok g => cases wk <;> simp [hc]

/-- C3: with equal package-name sets, `ComputePackageDiffs` returns
`status_code` 1 exactly when some package's compressed delta is at least
`MAX_DELTA_BYTES = 12 * 1024 = 12288` bytes (so a delta of 12287 does not
trigger failure and a delta of 12288 does), and a package with delta
exactly 12288 contributes the line "- P grew by 12288 bytes" to the
summary. -/
theorem c3_status_threshold (before after : Snapshot)
    (hk : sameKeys before after = true) :
    ∃ g, ComputePackageDiffs before after = Except.ok g ∧
      MAX_DELTA_BYTES = 12288 ∧
      (g.status_code = 1 ↔ ∃ p ∈ before, MAX_DELTA_BYTES ≤ deltaC after p) ∧
      (∀ p ∈ before, deltaC after p = 12288 → '\n' ∉ p.fst.data →
        ("- " ++ p.fst ++ " grew by 12288 bytes").data <:+: g.summary) := by
  rw [computePackageDiffs_ok hk]
  refine ⟨_, rfl, rfl, ?_, ?_⟩
  · show (before.foldl (diffStep after) ⟨[], [], 0, []⟩).status_code = 1 ↔ _
    rw [foldl_status]
    by_cases hc : ∃ p ∈ before, MAX_DELTA_BYTES ≤ deltaC after p
    · rw [if_pos hc]
      simp [hc]
    · rw [if_neg hc]
      simp [hc]
  · intro p hp hd hn
    have hgrew := foldl_summary_grew after before ⟨[], [], 0, []⟩ p hp
      (by rw [hd]; decide)
    rw [hd] at hgrew
    have hline : grewLine p.fst 12288 =
        ("- " ++ p.fst ++ " grew by 12288 bytes").data ++ ['\n'] := by
      rw [grewLine, String.data_append, String.data_append]
      have h1 : (toString (12288 : Int)).data = "12288".data := rfl
      have h2 : " grew by 12288 bytes".data =
          " grew by ".data ++ "12288".data ++ " bytes".data := rfl
      have h3 : " bytes\n".data = " bytes".data ++ ['\n'] := rfl
      rw [h1, h2, h3]
      simp [List.append_assoc]
    have hnl : '\n' ∉ ("- " ++ p.fst ++ " grew by 12288 bytes").data := by
      rw [String.data_append, String.data_append]
      intro hmem
      rcases List.mem_append.mp hmem with hmem' | h3
      · rcases List.mem_append.mp hmem' with h1 | h2
        · revert h1; decide
        · exact hn h2
      · revert h3; decide
    have hsub : ("- " ++ p.fst ++ " grew by 12288 bytes").data <:+:
        (before.foldl (diffStep after) ⟨[], [], 0, []⟩).summary := by
      refine List.IsInfix.trans ?_ hgrew
      rw [hline]
      exact (List.prefix_append _ _).isInfix
    show _ <:+: replaceNewlines _
    exact infix_replaceNewlines (hsub.trans (List.prefix_append _ _).isInfix) hnl

/-- C3 witness: a pair of single-package snapshots whose compressed delta
is exactly 12288 satisfies the key-set hypothesis, and the theorem applies. -/
theorem c3_status_threshold_witness :
    sameKeys [("P", ⟨0, 0⟩)] [("P", ⟨12288, 0⟩)] = true ∧
    (∃ g, ComputePackageDiffs [("P", ⟨0, 0⟩)] [("P", ⟨12288, 0⟩)] = Except.ok g ∧
      MAX_DELTA_BYTES = 12288 ∧
      (g.status_code = 1 ↔
        ∃ p ∈ [("P", (⟨0, 0⟩ : PackageSizes))],
          MAX_DELTA_BYTES ≤ deltaC [("P", ⟨12288, 0⟩)] p) ∧
      (∀ p ∈ [("P", (⟨0, 0⟩ : PackageSizes))],
        deltaC [("P", ⟨12288, 0⟩)] p = 12288 → '\n' ∉ p.fst.data →
        ("- " ++ p.fst ++ " grew by 12288 bytes").data <:+: g.summary)) :=
  ⟨by decide, c3_status_threshold _ _ (by decide)⟩

/-- C4: if the before and after snapshots do not have the same set of
package names, `ComputePackageDiffs` fails the assertion, modelled as
`Except.error`, and never produces a growth report. -/
theorem c4_mismatched_keys_fatal (before after : Snapshot)
    (h : ¬ ∀ k, k ∈ keys before ↔ k ∈ keys after) :
    ∃ e, ComputePackageDiffs before after = Except.error e := by
  have hk : sameKeys before after = false := by
    cases hb : sameKeys before after
    · rfl
    · exact absurd (sameKeys_iff.mp hb) h
  exact ⟨_, by rw [ComputePackageDiffs, hk]; rfl⟩

/-- C4 witness: a before snapshot with one package against an empty after
snapshot has mismatched key sets, and the assertion fires. -/
theorem c4_mismatched_keys_fatal_witness :
    (¬ ∀ k, k ∈ keys [("pkgA", (⟨0, 0⟩ : PackageSizes))] ↔ k ∈ keys ([] : Snapshot)) ∧
    ∃ e, ComputePackageDiffs [("pkgA", ⟨0, 0⟩)] [] = Except.error e := by
  have hh : ¬ ∀ k, k ∈ keys [("pkgA", (⟨0, 0⟩ : PackageSizes))] ↔ k ∈ keys ([] : Snapshot) := by
    intro h
    have := (h "pkgA").mp (by simp [keys])
    simp [keys] at this
  exact ⟨hh, c4_mismatched_keys_fatal _ _ hh⟩

/-- C5: with equal package-name sets and distinct package names, the growth
report maps every package of the before snapshot, in the compressed
mapping, to `after.compressed - before.compressed`, and in the uncompressed
mapping, to `after.uncompressed - before.uncompressed`. -/
theorem c5_growth_deltas (before after : Snapshot)
    (hk : sameKeys before after = true) (hnd : (keys before).Nodup) :
    ∃ g, ComputePackageDiffs before after = Except.ok g ∧
      ∀ p ∈ before, ∃ a, List.lookup p.fst after = some a ∧
        List.lookup p.fst g.compressed = some (a.compressed - p.snd.compressed) ∧
        List.lookup p.fst g.uncompressed = some (a.uncompressed - p.snd.uncompressed) := by
  rw [computePackageDiffs_ok hk]
  refine ⟨_, rfl, ?_⟩
  intro p hp
  have hmem : p.fst ∈ keys after :=
    (sameKeys_iff.mp hk p.fst).mp (List.mem_map_of_mem Prod.fst hp)
  obtain ⟨a, ha⟩ := lookup_of_mem_keys hmem
  have hdc : deltaC after p = a.compressed - p.snd.compressed := by
    rw [deltaC, ha]
    rfl
  have hdu : deltaU after p = a.uncompressed - p.snd.uncompressed := by
    rw [deltaU, ha]
    rfl
  refine ⟨a, ha, ?_, ?_⟩
  · show List.lookup p.fst (before.foldl (diffStep after) ⟨[], [], 0, []⟩).compressedGrowth = _
    rw [foldl_compressed, List.nil_append, lookup_map_fst hnd hp, hdc]
  · show List.lookup p.fst (before.foldl (diffStep after) ⟨[], [], 0, []⟩).uncompressedGrowth = _
    rw [foldl_uncompressed, List.nil_append, lookup_map_fst hnd hp, hdu]

/-- C5 witness: a two-package snapshot pair with distinct names satisfies
both hypotheses, and the theorem applies. -/
theorem c5_growth_deltas_witness :
    sameKeys [("a", ⟨10, 20⟩), ("b", ⟨30, 40⟩)] [("b", ⟨35, 41⟩), ("a", ⟨7, 25⟩)] = true ∧
    (keys [("a", (⟨10, 20⟩ : PackageSizes)), ("b", ⟨30, 40⟩)]).Nodup ∧
    (∃ g, ComputePackageDiffs [("a", ⟨10, 20⟩), ("b", ⟨30, 40⟩)]
        [("b", ⟨35, 41⟩), ("a", ⟨7, 25⟩)] = Except.ok g ∧
      ∀ p ∈ [("a", (⟨10, 20⟩ : PackageSizes)), ("b", ⟨30, 40⟩)],
        ∃ a, List.lookup p.fst [("b", (⟨35, 41⟩ : PackageSizes)), ("a", ⟨7, 25⟩)] = some a ∧
          List.lookup p.fst g.compressed = some (a.compressed - p.snd.compressed) ∧
          List.lookup p.fst g.uncompressed = some (a.uncompressed - p.snd.uncompressed)) :=
  ⟨by decide, by decide, c5_growth_deltas _ _ (by decide) (by decide)⟩

/-- C6: with equal package-name sets, if every package's compressed delta
is strictly below the threshold then the status code is 0; the uncompressed
deltas play no role in the status. -/
theorem c6_uncompressed_never_fails (before after : Snapshot)
    (hk : sameKeys before after = true)
    (hall : ∀ p ∈ before, deltaC after p < MAX_DELTA_BYTES) :
    ∃ g, ComputePackageDiffs before after = Except.ok g ∧ g.status_code = 0 := by
  rw [computePackageDiffs_ok hk]
  refine ⟨_, rfl, ?_⟩
  show (before.foldl (diffStep after) ⟨[], [], 0, []⟩).status_code = 0
  have hno : ¬ ∃ p ∈ before, MAX_DELTA_BYTES ≤ deltaC after p := by
    rintro ⟨p, hp, hd⟩
    exact absurd hd (not_le.mpr (hall p hp))
  rw [foldl_status, if_neg hno]

/-- C6 witness: a package whose uncompressed size grew by 100000 bytes
while its compressed size did not change still yields status code 0. -/
theorem c6_uncompressed_never_fails_witness :
    sameKeys [("pkg", ⟨500, 1000⟩)] [("pkg", ⟨500, 101000⟩)] = true ∧
    (∀ p ∈ [("pkg", (⟨500, 1000⟩ : PackageSizes))],
      deltaC [("pkg", ⟨500, 101000⟩)] p < MAX_DELTA_BYTES) ∧
    (∃ g, ComputePackageDiffs [("pkg", ⟨500, 1000⟩)] [("pkg", ⟨500, 101000⟩)] = Except.ok g ∧
      g.status_code = 0) :=
  ⟨by decide, by decide, c6_uncompressed_never_fails _ _ (by decide) (by decide)⟩

/-- C7: with equal package-name sets, the final summary is the
newline-replaced image of a raw summary that ends with a blank line (the
accumulated package lines end with a newline, or are empty, and a lone
newline follows) and then the pointer to the trybot documentation; the
final summary contains no newline character. -/
theorem c7_summary_trailer (before after : Snapshot)
    (hk : sameKeys before after = true) :
    ∃ g rest, ComputePackageDiffs before after = Except.ok g ∧
      EndsNl rest ∧
      g.summary = replaceNewlines rest ++ ("<br>".data ++
        replaceNewlines
          ("See the following document for more information about this trybot:\n".data
            ++ TRYBOT_DOC.data)) ∧
      '\n' ∉ g.summary := by
  rw [computePackageDiffs_ok hk]
  refine ⟨_, (before.foldl (diffStep after) ⟨[], [], 0, []⟩).summary, rfl,
    foldl_endsNl after before _ (Or.inl rfl), ?_, newline_not_mem_replaceNewlines _⟩
  show replaceNewlines (_ ++ trailerText) = _
  rw [replaceNewlines_append]
  congr 1

/-- C7 witness: the key-set hypothesis holds for a concrete snapshot pair,
and the theorem applies. -/
theorem c7_summary_trailer_witness :
    sameKeys [("pkg", ⟨1, 2⟩)] [("pkg", ⟨3, 4⟩)] = true ∧
    (∃ g rest, ComputePackageDiffs [("pkg", ⟨1, 2⟩)] [("pkg", ⟨3, 4⟩)] = Except.ok g ∧
      EndsNl rest ∧
      g.summary = replaceNewlines rest ++ ("<br>".data ++
        replaceNewlines
          ("See the following document for more information about this trybot:\n".data
            ++ TRYBOT_DOC.data)) ∧
      '\n' ∉ g.summary) :=
  ⟨by decide, c7_summary_trailer _ _ (by decide)⟩

end BinarySizeDifferClaims


namespace TestRunner

/-- `DEFAULT_TEST_CONCURRENCY = 4` -/
def DEFAULT_TEST_CONCURRENCY : Int := 4

/-- `TEST_RESULT_PATH = '/data/test_summary.json'` -/
def TEST_RESULT_PATH : String := "/data/test_summary.json"

/-- `TEST_FILTER_PATH = '/data/test_filter.txt'` -/
def TEST_FILTER_PATH : String := "/data/test_filter.txt"

/-- Python truthiness of an optional integer flag: `None` and `0` are falsy. -/
def truthyInt : Option Int → Bool
  | none => false
  | some n => n != 0

/-- Python truthiness of an optional string flag: `None` and `''` are falsy. -/
def truthyStr : Option String → Bool
  | none => false
  | some s => s != ""

/-- The parsed arguments of `test_runner.py` that shape the child argument
list. Flags with `action='store_true'` are `Bool`; flags without a default
are `Option`; `--child-arg` accumulates a list; positional `child_args`
collect the rest. -/
structure Args where
  gtest_filter : Option String
  gtest_repeat : Option String
  test_launcher_retry_limit : Option String
  gtest_break_on_failure : Bool
  single_process_tests : Bool
  test_launcher_batch_limit : Option Int
  test_launcher_filter_file : Option String
  test_launcher_jobs : Option Int
  test_launcher_summary_output : Option String
  enable_test_server : Bool
  test_launcher_bot_mode : Bool
  child_arg : Option (List String)
  child_args : List String

/-- `test_concurrency = args.test_launcher_jobs if args.test_launcher_jobs
else DEFAULT_TEST_CONCURRENCY`. -/
def test_concurrency (a : Args) : Int :=
  if truthyInt a.test_launcher_jobs then a.test_launcher_jobs.getD 0
  else DEFAULT_TEST_CONCURRENCY

/-- The `child_args` list passed to `RunPackage`, assembled in source
order; each Python `child_args.append(...)` under a truthiness test is a
conditional singleton segment, and the filter-file argument is appended
inside the deployment block before `RunPackage` runs. -/
def childArgs (a : Args) : List String :=
  ["--test-launcher-retry-limit=0"]
  ++ (if a.single_process_tests then ["--single-process-tests"] else [])
  ++ (if a.test_launcher_bot_mode then ["--test-launcher-bot-mode"] else [])
  ++ (if truthyInt a.test_launcher_batch_limit then
        ["--test-launcher-batch-limit=" ++ toString (a.test_launcher_batch_limit.getD 0)]
      else [])
  ++ ["--test-launcher-jobs=" ++ toString (test_concurrency a)]
  ++ (if truthyStr a.gtest_filter then ["--gtest_filter=" ++ a.gtest_filter.getD ""] else [])
  ++ (if truthyStr a.gtest_repeat then
        ["--gtest_repeat=" ++ a.gtest_repeat.getD "", "--test-launcher-timeout=-1"]
      else [])
  ++ (if truthyStr a.test_launcher_retry_limit then
        ["--test-launcher-retry-limit=" ++ a.test_launcher_retry_limit.getD ""]
      else [])
  ++ (if a.gtest_break_on_failure then ["--gtest_break_on_failure"] else [])
  ++ (if truthyStr a.test_launcher_summary_output then
        ["--test-launcher-summary-output=" ++ TEST_RESULT_PATH]
      else [])
  ++ a.child_arg.getD []
  ++ a.child_args
  ++ (if truthyStr a.test_launcher_filter_file then
        ["--test-launcher-filter-file=" ++ TEST_FILTER_PATH]
      else [])

/-- The external collaborators of `test_runner.py`: the package runner's
result, and whether each delegated step succeeds (a failing step raises and
the exception propagates out of `main`). -/
structure Collab where
  runPackage : List String → Int
  start_ok : Bool
  put_file_ok : Bool
  setup_server_ok : Bool
  server_stop_ok : Bool
  get_file_ok : Bool

/-- `main()` of `test_runner.py` from the deployment block on: each
collaborator call can raise (modelled as `Except.error`), `RunPackage`
receives the final child argument list, and its result is returned
unchanged. -/
def main (a : Args) (c : Collab) : Except String Int :=
  if !c.start_ok then Except.error "Start"
  else if truthyStr a.test_launcher_filter_file && !c.put_file_ok then Except.error "PutFile"
  else if a.enable_test_server && !c.setup_server_ok then Except.error "SetupTestServer"
  else
    let returncode := c.runPackage (childArgs a)
    if a.enable_test_server && !c.server_stop_ok then Except.error "Stop"
    else if truthyStr a.test_launcher_summary_output && !c.get_file_ok then
      Except.error "GetFile"
    else Except.ok returncode

end TestRunner

section TestRunnerClaims

open TestRunner

/-- C8: whenever `main` of `test_runner.py` returns a result (rather than
propagating a collaborator exception), that result is exactly the value
returned by `RunPackage` on the constructed child argument list; no
remapping or reclassification happens. -/
theorem c8_returncode_propagated (a : Args) (c : Collab) (r : Int)
    (h : TestRunner.main a c = Except.ok r) :
    r = c.runPackage (childArgs a) := by
  unfold TestRunner.main at h
  by_cases h1 : (!c.start_ok) = true
  · rw [if_pos h1] at h
    cases h
  · rw [if_neg h1] at h
    by_cases h2 : (truthyStr a.test_launcher_filter_file && !c.put_file_ok) = true
    · rw [if_pos h2] at h
      cases h
    · rw [if_neg h2] at h
      by_cases h3 : (a.enable_test_server && !c.setup_server_ok) = true
      · rw [if_pos h3] at h
        cases h
      · rw [if_neg h3] at h
        by_cases h4 : (a.enable_test_server && !c.server_stop_ok) = true
        · simp only [if_pos h4] at h
          cases h
        · simp only [if_neg h4] at h
          by_cases h5 : (truthyStr a.test_launcher_summary_output && !c.get_file_ok) = true
          · simp only [if_pos h5] at h
            cases h
          · simp only [if_neg h5] at h
            cases h
            rfl

/-- Arguments with every optional flag absent and every boolean flag off. -/
def argsDefault : Args :=
  { gtest_filter := none
    gtest_repeat := none
    test_launcher_retry_limit := none
    gtest_break_on_failure := false
    single_process_tests := false
    test_launcher_batch_limit := none
    test_launcher_filter_file := none
    test_launcher_jobs := none
    test_launcher_summary_output := none
    enable_test_server := false
    test_launcher_bot_mode := false
    child_arg := none
    child_args := [] }

/-- Collaborators that all succeed and a package run that exits with 7. -/
def collabOk : Collab :=
  { runPackage := fun _ => 7
    start_ok := true
    put_file_ok := true
    setup_server_ok := true
    server_stop_ok := true
    get_file_ok := true }

/-- C8 witness: with all collaborators succeeding and a package run exiting
with code 7, `main` returns exactly 7. -/
theorem c8_returncode_propagated_witness :
    TestRunner.main argsDefault collabOk = Except.ok 7 ∧
    (7 : Int) = collabOk.runPackage (childArgs argsDefault) :=
  ⟨rfl, c8_returncode_propagated argsDefault collabOk 7 rfl⟩

/-- C9: when `--test-launcher-jobs` is absent or 0, the child argument list
contains `--test-launcher-jobs=4` (the default concurrency); a non-zero
value overrides the default. -/
theorem c9_jobs_default (a : Args) :
    ((a.test_launcher_jobs = none ∨ a.test_launcher_jobs = some 0) →
      "--test-launcher-jobs=4" ∈ childArgs a) ∧
    (∀ n, a.test_launcher_jobs = some n → n ≠ 0 →
      ("--test-launcher-jobs=" ++ toString n) ∈ childArgs a) := by
  have hmem : ∀ s, s = "--test-launcher-jobs=" ++ toString (test_concurrency a) →
      s ∈ childArgs a := by
    intro s hs
    subst hs
    unfold childArgs
    simp
  constructor
  · intro h
    apply hmem
    have hc : test_concurrency a = 4 := by
      rcases h with h | h <;>
        simp [test_concurrency, truthyInt, h, DEFAULT_TEST_CONCURRENCY]
    rw [hc]
    rfl
  · intro n hn hne
    apply hmem
    have hc : test_concurrency a = n := by
      simp [test_concurrency, truthyInt, hn, hne]
    rw [hc]

/-- C9 witness: with the jobs flag absent, the default line is present. -/
theorem c9_jobs_default_witness :
    (argsDefault.test_launcher_jobs = none ∨ argsDefault.test_launcher_jobs = some 0) ∧
    "--test-launcher-jobs=4" ∈ childArgs argsDefault :=
  ⟨Or.inl rfl, (c9_jobs_default argsDefault).1 (Or.inl rfl)⟩

/-- C10: the child argument list always begins with
`--test-launcher-retry-limit=0`; a supplied (non-empty) retry-limit value
adds a second `--test-launcher-retry-limit=<value>` entry later in the list
while the initial default entry remains first. -/
theorem c10_retry_limit_default_first (a : Args) :
    (childArgs a).head? = some "--test-launcher-retry-limit=0" ∧
    (∀ s, a.test_launcher_retry_limit = some s → s ≠ "" →
      ("--test-launcher-retry-limit=" ++ s) ∈ (childArgs a).tail) := by
  constructor
  · rfl
  · intro s hs hne
    unfold childArgs
    simp [hs, truthyStr, hne]

/-- C10 witness: with retry limit "3" supplied, the list still starts with
the default entry and also contains the supplied entry in its tail. -/
theorem c10_retry_limit_default_first_witness :
    ({ argsDefault with test_launcher_retry_limit := some "3" } : Args).test_launcher_retry_limit
        = some "3" ∧
    ("3" : String) ≠ "" ∧
    (childArgs { argsDefault with test_launcher_retry_limit := some "3" }).head?
        = some "--test-launcher-retry-limit=0" ∧
    "--test-launcher-retry-limit=3" ∈
      (childArgs { argsDefault with test_launcher_retry_limit := some "3" }).tail :=
  ⟨rfl, by decide,
    (c10_retry_limit_default_first { argsDefault with test_launcher_retry_limit := some "3" }).1,
    (c10_retry_limit_default_first
      { argsDefault with test_launcher_retry_limit := some "3" }).2 "3" rfl (by decide)⟩

end TestRunnerClaims
